import Mathlib

/-!
Formal model of the request admission gate in
`Django-Middleware-0x03/chats/middleware.py`: the time-window access gate
(`RestrictAccessByTimeMiddleware`) and the sliding-window rate gate
(`OffensiveLanguageMiddleware`), together with the client-key resolution
helper `_get_client_ip`.

Timestamps and times of day are modelled as rationals (seconds); the
per-process dictionary `self.ip_requests` (a `defaultdict(list)`) is
modelled as a total map from resolved client keys to timestamp lists,
with absent keys mapped to `[]`.
-/

/-- An inbound HTTP request, reduced to the fields the two gates read:
the request method, the optional forwarded-for header
(`META['HTTP_X_FORWARDED_FOR']`, `none` when the key is absent) and the
optional direct connection address (`META['REMOTE_ADDR']`). -/
structure Request where
  method : String
  xForwardedFor : Option String
  remoteAddr : Option String
deriving DecidableEq

/-- A response: either a terminal 403 with a plain-text body
(`HttpResponseForbidden`) or a downstream response produced by the
`get_response` handler, abstracted as a payload string. -/
inductive Response where
  | forbidden (body : String)
  | ok (payload : String)
deriving DecidableEq

/-- Outcome of the rate gate before the downstream handler is consulted:
either the request is forwarded to `get_response`, or a 403 body is
returned immediately. -/
inductive GateOutcome where
  | forwarded
  | forbidden (body : String)
deriving DecidableEq

/-- A resolved client key: `some ip` normally, `none` when both address
sources are absent (Python's `_get_client_ip` then returns `None`, which
is still a usable dictionary key). -/
abbrev ClientKey := Option String

/-- The per-process rate-limiting state `self.ip_requests`: each client
key maps to the list of retained request timestamps. -/
abbrev RateWindowState := ClientKey → List ℚ

/-- The state at middleware construction time: every key maps to `[]`
(the `defaultdict(list)` default). -/
def emptyState : RateWindowState := fun _ => []

/-- Immutable gate configuration: `self.max_requests` and
`self.time_window` (in seconds). -/
structure GateConfig where
  maxRequests : Nat
  windowSeconds : ℚ

/-- The defaults set in `OffensiveLanguageMiddleware.__init__`:
5 requests per 60-second window. -/
def defaultConfig : GateConfig := ⟨5, 60⟩

/-- Splitting a character list at every comma, as Python's
`str.split(',')` does on the character sequence: the result always has
one more group than there are commas, so the empty input yields `[[]]`. -/
def splitCommaAux : List Char → List (List Char)
  | [] => [[]]
  | c :: cs =>
    if c = ',' then [] :: splitCommaAux cs
    else
      match splitCommaAux cs with
      | [] => [[c]]
      | g :: gs => (c :: g) :: gs

/-- Python's `s.split(',')` on a string. -/
def splitComma (s : String) : List String :=
  (splitCommaAux s.toList).map String.mk

/-- `OffensiveLanguageMiddleware._get_client_ip`: if the forwarded-for
header is truthy (present and non-empty), take its first comma-separated
entry (`x_forwarded_for.split(',')[0]`); otherwise fall back to
`REMOTE_ADDR` (possibly absent). -/
def get_client_ip (r : Request) : ClientKey :=
  match r.xForwardedFor with
  | some s => if s = "" then r.remoteAddr else some ((splitComma s).headD "")
  | none => r.remoteAddr

/-- Writing one client's timestamp list back into the shared map
(`self.ip_requests[ip_address] = ...`). -/
def updateState (st : RateWindowState) (k : ClientKey) (l : List ℚ) : RateWindowState :=
  fun k' => if k' = k then l else st k'

/-- The pruning step (the list comprehension at middleware.py lines
146-149): keep exactly the timestamps with `now - t < windowSeconds`. -/
def prune (windowSeconds now : ℚ) (l : List ℚ) : List ℚ :=
  l.filter fun t => decide (now - t < windowSeconds)

/-- The body of the 403 returned on rate-limit rejection (the f-string at
middleware.py line 154). -/
def rateLimitMsg (maxRequests : Nat) : String :=
  "Rate limit exceeded: Maximum " ++ toString maxRequests ++ " messages per minute allowed"

/-- One evaluation of `OffensiveLanguageMiddleware.__call__` up to (but
not including) the downstream call: non-POST requests bypass the gate
and leave the state untouched; for a POST request the client's list is
pruned and written back, the quota is checked, and only on admission is
the current timestamp appended. -/
def rateGateStep (cfg : GateConfig) (st : RateWindowState) (r : Request) (now : ℚ) :
    GateOutcome × RateWindowState :=
  if r.method = "POST" then
    if cfg.maxRequests ≤ (prune cfg.windowSeconds now (st (get_client_ip r))).length then
      (GateOutcome.forbidden (rateLimitMsg cfg.maxRequests),
       updateState st (get_client_ip r)
         (prune cfg.windowSeconds now (st (get_client_ip r))))
    else
      (GateOutcome.forwarded,
       updateState st (get_client_ip r)
         (prune cfg.windowSeconds now (st (get_client_ip r)) ++ [now]))
  else
    (GateOutcome.forwarded, st)

/-- Full `OffensiveLanguageMiddleware.__call__`: on a `forwarded` outcome
the downstream handler is invoked on the unmodified request; on a
`forbidden` outcome the 403 is returned and the handler is never
consulted. -/
def rateGateCall (cfg : GateConfig) (st : RateWindowState) (next : Request → Response)
    (r : Request) (now : ℚ) : Response × RateWindowState :=
  match rateGateStep cfg st r now with
  | (GateOutcome.forwarded, st1) => (next r, st1)
  | (GateOutcome.forbidden body, st1) => (Response.forbidden body, st1)

/-- Process a sequence of timestamped requests through the rate gate,
threading the shared state and collecting each request's outcome. -/
def runGate (cfg : GateConfig) : RateWindowState → List (Request × ℚ) →
    List GateOutcome × RateWindowState
  | st, [] => ([], st)
  | st, (r, now) :: rest =>
    let p := rateGateStep cfg st r now
    let q := runGate cfg p.2 rest
    (p.1 :: q.1, q.2)

/-- Start of the allowed window in `RestrictAccessByTimeMiddleware`:
21:00, as seconds of day. -/
def allowedStart : ℚ := 21 * 3600

/-- End of the allowed window in `RestrictAccessByTimeMiddleware`:
06:00, as seconds of day. -/
def allowedEnd : ℚ := 6 * 3600

/-- The body of the 403 returned outside the allowed window
(middleware.py line 105). -/
def timeGateMsg : String := "Access denied: Chat is only available from 9PM to 6AM"

/-- The decision predicate of `RestrictAccessByTimeMiddleware.__call__`:
`current_time < end_time or current_time >= start_time`. -/
def timeGateAllows (t : ℚ) : Bool :=
  decide (t < allowedEnd) || decide (allowedStart ≤ t)

/-- Full `RestrictAccessByTimeMiddleware.__call__` at time-of-day `t`:
forward to the handler inside the allowed window, else return the 403. -/
def timeGateCall (next : Request → Response) (r : Request) (t : ℚ) : Response :=
  if timeGateAllows t then next r else Response.forbidden timeGateMsg

/-! Helper lemmas shared by the claim theorems. -/

theorem runGate_nil (cfg : GateConfig) (st : RateWindowState) :
    runGate cfg st [] = ([], st) := rfl

theorem runGate_cons (cfg : GateConfig) (st : RateWindowState) (r : Request) (now : ℚ)
    (rest : List (Request × ℚ)) :
    runGate cfg st ((r, now) :: rest) =
      ((rateGateStep cfg st r now).1 ::
         (runGate cfg (rateGateStep cfg st r now).2 rest).1,
       (runGate cfg (rateGateStep cfg st r now).2 rest).2) := rfl

theorem prune_eq_self {w now : ℚ} {l : List ℚ} (h : ∀ t ∈ l, now - t < w) :
    prune w now l = l := by
  rw [prune, List.filter_eq_self]
  intro a ha
  exact decide_eq_true (h a ha)

theorem prune_nil {w now : ℚ} : prune w now [] = [] := rfl

theorem prune_cons_keep {w now a : ℚ} {l : List ℚ} (h : now - a < w) :
    prune w now (a :: l) = a :: prune w now l := by
  simp [prune, List.filter_cons, h]

theorem prune_cons_drop {w now a : ℚ} {l : List ℚ} (h : ¬ now - a < w) :
    prune w now (a :: l) = prune w now l := by
  simp [prune, List.filter_cons, h]

theorem updateState_same (st : RateWindowState) (k : ClientKey) (l : List ℚ) :
    updateState st k l k = l := by
  simp [updateState]

theorem updateState_other (st : RateWindowState) (k : ClientKey) (l : List ℚ)
    (k' : ClientKey) (h : k' ≠ k) : updateState st k l k' = st k' := by
  simp [updateState, h]

theorem rateGateStep_snd_other (cfg : GateConfig) (st : RateWindowState) (r : Request)
    (now : ℚ) (k : ClientKey) (hk : k ≠ get_client_ip r) :
    (rateGateStep cfg st r now).2 k = st k := by
  rw [rateGateStep]
  split_ifs with h1 h2 <;> simp [updateState_other _ _ _ _ hk]

theorem runGate_snd_other (cfg : GateConfig) (reqs : List (Request × ℚ))
    (st : RateWindowState) (k : ClientKey) (hk : ∀ p ∈ reqs, k ≠ get_client_ip p.1) :
    (runGate cfg st reqs).2 k = st k := by
  induction reqs generalizing st with
  | nil => rfl
  | cons p rest ih =>
    obtain ⟨r, now⟩ := p
    rw [runGate_cons]
    have h1 := ih (rateGateStep cfg st r now).2 (fun q hq => hk q (List.mem_cons_of_mem _ hq))
    rw [h1, rateGateStep_snd_other cfg st r now k (hk (r, now) (List.mem_cons_self _ _))]

theorem rateGateStep_fst_congr (cfg : GateConfig) (st st' : RateWindowState) (r : Request)
    (now : ℚ) (h : st (get_client_ip r) = st' (get_client_ip r)) :
    (rateGateStep cfg st r now).1 = (rateGateStep cfg st' r now).1 := by
  simp only [rateGateStep, h]
  split_ifs <;> rfl

theorem rateGateStep_post_under (cfg : GateConfig) (st : RateWindowState) (r : Request)
    (now : ℚ) (hm : r.method = "POST")
    (hlen : (prune cfg.windowSeconds now (st (get_client_ip r))).length < cfg.maxRequests) :
    rateGateStep cfg st r now =
      (GateOutcome.forwarded,
       updateState st (get_client_ip r)
         (prune cfg.windowSeconds now (st (get_client_ip r)) ++ [now])) := by
  rw [rateGateStep, if_pos hm, if_neg (Nat.not_le.mpr hlen)]

theorem rateGateStep_post_at_quota (cfg : GateConfig) (st : RateWindowState) (r : Request)
    (now : ℚ) (hm : r.method = "POST")
    (hlen : cfg.maxRequests ≤ (prune cfg.windowSeconds now (st (get_client_ip r))).length) :
    rateGateStep cfg st r now =
      (GateOutcome.forbidden (rateLimitMsg cfg.maxRequests),
       updateState st (get_client_ip r)
         (prune cfg.windowSeconds now (st (get_client_ip r)))) := by
  rw [rateGateStep, if_pos hm, if_pos hlen]

theorem step_keep_all (cfg : GateConfig) (st : RateWindowState) (r : Request) (now : ℚ)
    (hm : r.method = "POST")
    (hkeep : ∀ t ∈ st (get_client_ip r), now - t < cfg.windowSeconds)
    (hlen : (st (get_client_ip r)).length < cfg.maxRequests) :
    rateGateStep cfg st r now =
      (GateOutcome.forwarded,
       updateState st (get_client_ip r) (st (get_client_ip r) ++ [now])) := by
  rw [rateGateStep_post_under cfg st r now hm (by rw [prune_eq_self hkeep]; exact hlen),
    prune_eq_self hkeep]

theorem step_reject_keep_all (cfg : GateConfig) (st : RateWindowState) (r : Request) (now : ℚ)
    (hm : r.method = "POST")
    (hkeep : ∀ t ∈ st (get_client_ip r), now - t < cfg.windowSeconds)
    (hlen : cfg.maxRequests ≤ (st (get_client_ip r)).length) :
    rateGateStep cfg st r now =
      (GateOutcome.forbidden (rateLimitMsg cfg.maxRequests),
       updateState st (get_client_ip r) (st (get_client_ip r))) := by
  rw [rateGateStep_post_at_quota cfg st r now hm (by rw [prune_eq_self hkeep]; exact hlen),
    prune_eq_self hkeep]

/-- C2: the Time-Window Gate admits exactly when `t ≥ 21:00` (75600 s) or
`t < 06:00` (21600 s), rejects exactly when `06:00 ≤ t < 21:00`, and on
rejection returns the fixed 403 body without consulting the downstream
handler. -/
theorem time_window_gate_decision (t : ℚ) (r : Request) (next : Request → Response) :
    (timeGateAllows t = true ↔ ((75600 : ℚ) ≤ t ∨ t < 21600)) ∧
    (timeGateAllows t = false ↔ ((21600 : ℚ) ≤ t ∧ t < 75600)) ∧
    (timeGateAllows t = false →
      timeGateCall next r t =
        Response.forbidden "Access denied: Chat is only available from 9PM to 6AM") := by
  have hs : allowedStart = (75600 : ℚ) := by norm_num [allowedStart]
  have he : allowedEnd = (21600 : ℚ) := by norm_num [allowedEnd]
  refine ⟨?_, ?_, ?_⟩
  · rw [timeGateAllows, hs, he]
    simp [or_comm]
  · rw [timeGateAllows, hs, he]
    simp [not_or, not_lt, not_le, and_comm]
  · intro h
    rw [timeGateCall, h]
    rfl

/-- Witness for C2 at the concrete time 12:00 (43200 s). -/
theorem time_window_gate_decision_witness :
    (timeGateAllows 43200 = true ↔ ((75600 : ℚ) ≤ 43200 ∨ (43200 : ℚ) < 21600)) ∧
    (timeGateAllows 43200 = false ↔ ((21600 : ℚ) ≤ 43200 ∧ (43200 : ℚ) < 75600)) ∧
    (timeGateAllows 43200 = false →
      timeGateCall (fun _ => Response.ok "") ⟨"GET", none, none⟩ 43200 =
        Response.forbidden "Access denied: Chat is only available from 9PM to 6AM") :=
  time_window_gate_decision 43200 ⟨"GET", none, none⟩ (fun _ => Response.ok "")

/-- C5: with `maxRequests = 2`, `windowSeconds = 10`, client `1.1.1.1`
sending POSTs at t = 0, 3, 6, 9, 12 is admitted, admitted, rejected,
rejected, admitted. -/
theorem concrete_scenario_two_per_ten :
    (runGate ⟨2, 10⟩ emptyState
        [(⟨"POST", none, some "1.1.1.1"⟩, 0), (⟨"POST", none, some "1.1.1.1"⟩, 3),
         (⟨"POST", none, some "1.1.1.1"⟩, 6), (⟨"POST", none, some "1.1.1.1"⟩, 9),
         (⟨"POST", none, some "1.1.1.1"⟩, 12)]).1
      = [GateOutcome.forwarded, GateOutcome.forwarded,
         GateOutcome.forbidden (rateLimitMsg 2), GateOutcome.forbidden (rateLimitMsg 2),
         GateOutcome.forwarded] := by
  have p2 : prune 10 3 [(0 : ℚ)] = [0] := by
    rw [prune_cons_keep (by norm_num), prune_nil]
  have p3 : prune 10 6 [(0 : ℚ), 3] = [0, 3] := by
    rw [prune_cons_keep (by norm_num), prune_cons_keep (by norm_num), prune_nil]
  have p4 : prune 10 9 [(0 : ℚ), 3] = [0, 3] := by
    rw [prune_cons_keep (by norm_num), prune_cons_keep (by norm_num), prune_nil]
  have p5 : prune 10 12 [(0 : ℚ), 3] = [3] := by
    rw [prune_cons_drop (by norm_num), prune_cons_keep (by norm_num), prune_nil]
  norm_num [runGate, rateGateStep, get_client_ip, emptyState, updateState, prune_nil,
    p2, p3, p4, p5]

/-- C7: a non-POST request bypasses the rate gate entirely: the
downstream response is returned unchanged and the whole shared state
(every client's list) is untouched, whatever the quota state. -/
theorem non_mutating_bypass (cfg : GateConfig) (st : RateWindowState)
    (next : Request → Response) (r : Request) (now : ℚ) (hm : r.method ≠ "POST") :
    rateGateCall cfg st next r now = (next r, st) := by
  rw [rateGateCall, rateGateStep, if_neg hm]

/-- Witness for C7: a GET request from a client already holding five
recorded timestamps is still forwarded and the state is unchanged. -/
theorem non_mutating_bypass_witness :
    rateGateCall defaultConfig (fun _ => [0, 0, 0, 0, 0]) (fun _ => Response.ok "r")
        ⟨"GET", none, some "a"⟩ 1
      = (Response.ok "r", fun _ => [0, 0, 0, 0, 0]) :=
  non_mutating_bypass defaultConfig (fun _ => [0, 0, 0, 0, 0]) (fun _ => Response.ok "r")
    ⟨"GET", none, some "a"⟩ 1 (by decide)

/-- C9: when both the forwarded-for header and the direct address are
absent, `_get_client_ip` returns the stable sentinel `none` (Python
`None`) without raising, so any two such requests resolve to the same
shared quota bucket. -/
theorem missing_address_sentinel (r r' : Request)
    (h1 : r.xForwardedFor = none) (h2 : r.remoteAddr = none)
    (h3 : r'.xForwardedFor = none) (h4 : r'.remoteAddr = none) :
    get_client_ip r = none ∧ get_client_ip r = get_client_ip r' := by
  simp [get_client_ip, h1, h2, h3, h4]

/-- Witness for C9 at two concrete address-free requests. -/
theorem missing_address_sentinel_witness :
    get_client_ip ⟨"POST", none, none⟩ = none ∧
    get_client_ip ⟨"POST", none, none⟩ = get_client_ip ⟨"GET", none, none⟩ :=
  missing_address_sentinel ⟨"POST", none, none⟩ ⟨"GET", none, none⟩ rfl rfl rfl rfl

/-- Counterexample for C6: a request whose forwarded-for header is
present but empty resolves to `REMOTE_ADDR`, not to the header's first
comma-separated entry (which would be the empty string). -/
theorem client_key_header_cex :
    (⟨"POST", some "", some "1.2.3.4"⟩ : Request).xForwardedFor = some "" ∧
    get_client_ip ⟨"POST", some "", some "1.2.3.4"⟩ = some "1.2.3.4" ∧
    ¬ get_client_ip ⟨"POST", some "", some "1.2.3.4"⟩ = some ((splitComma "").headD "") := by
  refine ⟨rfl, rfl, ?_⟩
  decide

/-- C6 (amended): the ClientKey is the first comma-separated entry of
the forwarded-for header whenever that header is present and non-empty;
when the header is absent or empty, it is the direct-connection
address. -/
theorem client_key_resolution (r r' : Request) (s : String)
    (h : r.xForwardedFor = some s) (hs : s ≠ "")
    (h' : r'.xForwardedFor = none ∨ r'.xForwardedFor = some "") :
    get_client_ip r = some ((splitComma s).headD "") ∧
    get_client_ip r' = r'.remoteAddr := by
  constructor
  · simp [get_client_ip, h, hs]
  · rcases h' with h' | h' <;> simp [get_client_ip, h']

/-- Witness for the amended C6 at a two-entry header and an empty
header. -/
theorem client_key_resolution_witness :
    get_client_ip ⟨"POST", some "1.2.3.4,5.6.7.8", some "9.9.9.9"⟩
        = some ((splitComma "1.2.3.4,5.6.7.8").headD "") ∧
    get_client_ip ⟨"GET", some "", some "7.7.7.7"⟩ = some "7.7.7.7" :=
  client_key_resolution ⟨"POST", some "1.2.3.4,5.6.7.8", some "9.9.9.9"⟩
    ⟨"GET", some "", some "7.7.7.7"⟩ "1.2.3.4,5.6.7.8" rfl (by decide) (Or.inr rfl)

/-- C1: with the default configuration (5 per 60 s), a single client
POSTing at `t1 < ... < t6` within one 60-second span has requests 1-5
admitted and recorded, request 6 rejected, and a 7th request at or after
`t1 + 60` (once `t1` has aged out) admitted again. -/
theorem rate_gate_default_scenario (r : Request) (hm : r.method = "POST")
    (t1 t2 t3 t4 t5 t6 t7 : ℚ)
    (h12 : t1 < t2) (h23 : t2 < t3) (h34 : t3 < t4) (h45 : t4 < t5) (h56 : t5 < t6)
    (hspan : t6 - t1 < 60) (hage : t1 + 60 ≤ t7) :
    (runGate defaultConfig emptyState
        [(r, t1), (r, t2), (r, t3), (r, t4), (r, t5)]).2 (get_client_ip r)
      = [t1, t2, t3, t4, t5] ∧
    (runGate defaultConfig emptyState
        [(r, t1), (r, t2), (r, t3), (r, t4), (r, t5), (r, t6), (r, t7)]).1
      = [GateOutcome.forwarded, GateOutcome.forwarded, GateOutcome.forwarded,
         GateOutcome.forwarded, GateOutcome.forwarded,
         GateOutcome.forbidden (rateLimitMsg 5), GateOutcome.forwarded] := by
  have k2 : prune 60 t2 [t1] = [t1] := by
    rw [prune_cons_keep (by linarith), prune_nil]
  have k3 : prune 60 t3 [t1, t2] = [t1, t2] := by
    rw [prune_cons_keep (by linarith), prune_cons_keep (by linarith), prune_nil]
  have k4 : prune 60 t4 [t1, t2, t3] = [t1, t2, t3] := by
    rw [prune_cons_keep (by linarith), prune_cons_keep (by linarith),
      prune_cons_keep (by linarith), prune_nil]
  have k5 : prune 60 t5 [t1, t2, t3, t4] = [t1, t2, t3, t4] := by
    rw [prune_cons_keep (by linarith), prune_cons_keep (by linarith),
      prune_cons_keep (by linarith), prune_cons_keep (by linarith), prune_nil]
  have k6 : prune 60 t6 [t1, t2, t3, t4, t5] = [t1, t2, t3, t4, t5] := by
    rw [prune_cons_keep (by linarith), prune_cons_keep (by linarith),
      prune_cons_keep (by linarith), prune_cons_keep (by linarith),
      prune_cons_keep (by linarith), prune_nil]
  have k7 : prune 60 t7 [t1, t2, t3, t4, t5] = prune 60 t7 [t2, t3, t4, t5] :=
    prune_cons_drop (not_lt.mpr (by linarith))
  have h7 : ¬ (5 ≤ (prune (60 : ℚ) t7 [t2, t3, t4, t5]).length) := by
    have hle := List.length_filter_le (fun t => decide (t7 - t < (60 : ℚ))) [t2, t3, t4, t5]
    rw [prune]
    simp only [List.length_cons, List.length_nil] at hle ⊢
    omega
  constructor
  · norm_num [runGate, rateGateStep, defaultConfig, emptyState, updateState, hm,
      prune_nil, k2, k3, k4, k5]
  · norm_num [runGate, rateGateStep, defaultConfig, emptyState, updateState, hm,
      prune_nil, k2, k3, k4, k5, k6, k7, h7]

/-- Witness for C1 at times 0, 1, 2, 3, 4, 5, 60. -/
theorem rate_gate_default_scenario_witness :
    (runGate defaultConfig emptyState
        [(⟨"POST", none, some "w"⟩, 0), (⟨"POST", none, some "w"⟩, 1),
         (⟨"POST", none, some "w"⟩, 2), (⟨"POST", none, some "w"⟩, 3),
         (⟨"POST", none, some "w"⟩, 4)]).2 (get_client_ip ⟨"POST", none, some "w"⟩)
      = [0, 1, 2, 3, 4] ∧
    (runGate defaultConfig emptyState
        [(⟨"POST", none, some "w"⟩, 0), (⟨"POST", none, some "w"⟩, 1),
         (⟨"POST", none, some "w"⟩, 2), (⟨"POST", none, some "w"⟩, 3),
         (⟨"POST", none, some "w"⟩, 4), (⟨"POST", none, some "w"⟩, 5),
         (⟨"POST", none, some "w"⟩, 60)]).1
      = [GateOutcome.forwarded, GateOutcome.forwarded, GateOutcome.forwarded,
         GateOutcome.forwarded, GateOutcome.forwarded,
         GateOutcome.forbidden (rateLimitMsg 5), GateOutcome.forwarded] :=
  rate_gate_default_scenario ⟨"POST", none, some "w"⟩ rfl 0 1 2 3 4 5 60
    (by norm_num) (by norm_num) (by norm_num) (by norm_num) (by norm_num)
    (by norm_num) (by norm_num)

/-- C3: after any rate-gate evaluation of a POST request (with a positive
window), every timestamp retained in that client's stored list satisfies
`now - t < windowSeconds`. -/
theorem rate_gate_pruning_invariant (cfg : GateConfig) (st : RateWindowState)
    (r : Request) (now : ℚ) (hm : r.method = "POST") (hw : 0 < cfg.windowSeconds) :
    ((rateGateStep cfg st r now).2 (get_client_ip r)).all
      (fun t => decide (now - t < cfg.windowSeconds)) = true := by
  rw [rateGateStep, if_pos hm]
  by_cases hq : cfg.maxRequests ≤ (prune cfg.windowSeconds now (st (get_client_ip r))).length
  · rw [if_pos hq]
    simp only [updateState_same]
    rw [List.all_eq_true]
    intro t ht
    rw [prune] at ht
    exact (List.mem_filter.mp ht).2
  · rw [if_neg hq]
    simp only [updateState_same]
    rw [List.all_eq_true]
    intro t ht
    rcases List.mem_append.mp ht with h1 | h2
    · rw [prune] at h1
      exact (List.mem_filter.mp h1).2
    · have ht2 : t = now := List.mem_singleton.mp h2
      subst ht2
      rw [sub_self]
      exact decide_eq_true hw

/-- Witness for C3: the default configuration, the empty state, a POST
request at time 0. -/
theorem rate_gate_pruning_invariant_witness :
    ((rateGateStep defaultConfig emptyState ⟨"POST", none, some "z"⟩ 0).2
        (get_client_ip ⟨"POST", none, some "z"⟩)).all
      (fun t => decide ((0 : ℚ) - t < defaultConfig.windowSeconds)) = true :=
  rate_gate_pruning_invariant defaultConfig emptyState ⟨"POST", none, some "z"⟩ 0 rfl
    (by norm_num [defaultConfig])

/-- C4: a POST request whose pruned list already has at least
`maxRequests` entries gets the 403 with the quota message, its timestamp
is not appended (the stored list becomes exactly the pruned list), and
the downstream handler is never invoked (the result is the same for
every handler `next`). -/
theorem rate_gate_at_quota_reject (cfg : GateConfig) (st : RateWindowState)
    (next : Request → Response) (r : Request) (now : ℚ) (hm : r.method = "POST")
    (hq : cfg.maxRequests ≤ (prune cfg.windowSeconds now (st (get_client_ip r))).length) :
    rateGateCall cfg st next r now =
      (Response.forbidden
        ("Rate limit exceeded: Maximum " ++ toString cfg.maxRequests ++
          " messages per minute allowed"),
       updateState st (get_client_ip r)
         (prune cfg.windowSeconds now (st (get_client_ip r)))) := by
  rw [rateGateCall, rateGateStep_post_at_quota cfg st r now hm hq]
  rfl

/-- Witness for C4: quota 1 per 60 s, one recorded timestamp at 0, a new
POST at time 1. -/
theorem rate_gate_at_quota_reject_witness :
    rateGateCall ⟨1, 60⟩ (fun _ => [0]) (fun _ => Response.ok "") ⟨"POST", none, some "q"⟩ 1 =
      (Response.forbidden
        ("Rate limit exceeded: Maximum " ++ toString 1 ++ " messages per minute allowed"),
       updateState (fun _ => [0]) (get_client_ip ⟨"POST", none, some "q"⟩)
         (prune 60 1 [(0 : ℚ)])) :=
  rate_gate_at_quota_reject ⟨1, 60⟩ (fun _ => [0]) (fun _ => Response.ok "")
    ⟨"POST", none, some "q"⟩ 1 rfl
    (by show 1 ≤ (prune (60 : ℚ) 1 [(0 : ℚ)]).length
        rw [prune_cons_keep (by norm_num), prune_nil]
        simp)

/-- C8: requests whose client key resolves to A never change client B's
stored list, and do not change the outcome of a subsequent request from
B. -/
theorem per_client_independence (cfg : GateConfig) (st : RateWindowState)
    (A B : ClientKey) (hAB : B ≠ A)
    (reqs : List (Request × ℚ)) (hA : ∀ p ∈ reqs, get_client_ip p.1 = A)
    (rB : Request) (nowB : ℚ) (hB : get_client_ip rB = B) :
    (runGate cfg st reqs).2 B = st B ∧
    (rateGateStep cfg (runGate cfg st reqs).2 rB nowB).1 =
      (rateGateStep cfg st rB nowB).1 := by
  have h1 : (runGate cfg st reqs).2 B = st B := by
    refine runGate_snd_other cfg reqs st B (fun p hp => ?_)
    rw [hA p hp]
    exact hAB
  refine ⟨h1, rateGateStep_fst_congr cfg _ st rB nowB ?_⟩
  rw [hB, h1]

/-- Witness for C8: one POST from client `a`, then a POST from client
`b`. -/
theorem per_client_independence_witness :
    (runGate defaultConfig emptyState [(⟨"POST", none, some "a"⟩, 0)]).2 (some "b")
      = emptyState (some "b") ∧
    (rateGateStep defaultConfig
        (runGate defaultConfig emptyState [(⟨"POST", none, some "a"⟩, 0)]).2
        ⟨"POST", none, some "b"⟩ 1).1 =
      (rateGateStep defaultConfig emptyState ⟨"POST", none, some "b"⟩ 1).1 :=
  per_client_independence defaultConfig emptyState (some "a") (some "b") (by decide)
    [(⟨"POST", none, some "a"⟩, 0)] (by decide) ⟨"POST", none, some "b"⟩ 1 rfl

/-- C10: a rejected POST is not state-preserving: the client's stored
list afterwards is its previous list with every entry `t` with
`now - t ≥ windowSeconds` removed (the pruning write-back persists; only
the append is withheld). -/
theorem reject_prunes_state (cfg : GateConfig) (st : RateWindowState) (r : Request)
    (now : ℚ) (hm : r.method = "POST")
    (hq : cfg.maxRequests ≤ (prune cfg.windowSeconds now (st (get_client_ip r))).length) :
    (rateGateStep cfg st r now).2 (get_client_ip r) =
      (st (get_client_ip r)).filter (fun t => decide (now - t < cfg.windowSeconds)) := by
  rw [rateGateStep_post_at_quota cfg st r now hm hq]
  simp only [updateState_same]
  rw [prune]

/-- Witness for C10: quota 1 per 10 s, stored timestamps 0 and -100, a
rejected POST at time 2; afterwards the stored list is `[0]` (the stale
-100 was pruned away despite the rejection). -/
theorem reject_prunes_state_witness :
    (rateGateStep ⟨1, 10⟩ (fun _ => [0, -100]) ⟨"POST", none, some "s"⟩ 2).2
        (get_client_ip ⟨"POST", none, some "s"⟩) =
      [(0 : ℚ), -100].filter (fun t => decide ((2 : ℚ) - t < 10)) :=
  reject_prunes_state ⟨1, 10⟩ (fun _ => [0, -100]) ⟨"POST", none, some "s"⟩ 2 rfl
    (by show 1 ≤ (prune (10 : ℚ) 2 [(0 : ℚ), -100]).length
        rw [prune_cons_keep (by norm_num), prune_cons_drop (by norm_num), prune_nil]
        simp)
